import Mathlib

/-!
Verification development for the sinfonia-server audio scheduling engine.

The definitions below are a shallow embedding of the Rust sources:
  * `src/audio_engine/engine/mod.rs`      — entity state machine, tick loop, cross-fade
  * `src/audio_engine/engine/messaging.rs`— command handlers and message queue
  * `src/audio_engine/backends/alto.rs`   — OpenAL entity data (get_position)
  * `src/samplesdb/db.rs`                 — sample library lookups

Modelling conventions:
  * `f32` values are modelled as exact rationals `ℚ`; millisecond durations
    (`Duration`, `u64`) as `ℕ`; `u32` counters as `ℕ` (the source only
    decrements them under a positivity guard, so ℕ subtraction is faithful).
  * The thread-local RNG behind `rand::thread_rng().gen_range` and the
    audio backend observations (`is_playing`, `get_position`) are external
    inputs of each tick; they are passed in explicitly through `TickEnv`.
  * Calls issued to the audio backend are recorded as an ordered list of
    `BackendOp` values instead of mutating a native mixer.
-/

/-- Modelled from the spec: the declarative `Sound` record of §3.  The current
`src/theme.rs` in the snapshot is a stale revision (it still carries `funcs`
and a scalar volume); the `Sound` consumed by `engine/mod.rs` has the range
fields below, which are exactly the fields the engine dereferences. -/
structure Sound where
  name : String
  file : String
  volume : ℚ × ℚ
  pitch : ℚ × ℚ
  lowpass : ℚ × ℚ
  highpass : ℚ × ℚ
  fade_in : ℚ × ℚ
  pitch_enabled : Bool
  lowpass_enabled : Bool
  highpass_enabled : Bool
  fade_in_enabled : Bool
  repeat_count : ℕ × ℕ
  loop_count : ℕ × ℕ
  repeat_delay : ℕ × ℕ
  loop_delay : ℕ × ℕ
  loop_forever : Bool
  reverb : String
  trigger : Option String
  enabled : Bool
  deriving DecidableEq

/-- `get_random_value` from `engine/mod.rs` lines 18-25: equal bounds return
the left bound without consulting the RNG, otherwise `gen_range(lo, hi)` is
called; the RNG is passed explicitly as `rng`. -/
def get_random_value {α : Type} [DecidableEq α] (rng : α → α → α) (val : α × α) : α :=
  if val.1 = val.2 then val.1 else rng val.1 val.2

/-- One backend call issued by an entity, in the order the source issues them
(`play`, `pause`, `stop`, `set_volume`, `set_pitch`, `set_lowpass`,
`set_highpass`, `set_reverb` of the `AudioEntityData` trait). -/
inductive BackendOp : Type
  | play : BackendOp
  | pause : BackendOp
  | stop : BackendOp
  | setVolume : ℚ → BackendOp
  | setPitch : ℚ → BackendOp
  | setLowpass : ℚ → BackendOp
  | setHighpass : ℚ → BackendOp
  | setReverb : String → BackendOp
  deriving DecidableEq

/-- The per-tick external inputs of one entity update: the integer and
rational faces of `thread_rng().gen_range`, and what the backend object
reports through `is_playing()` and `get_position()` on this tick. -/
structure TickEnv where
  rngN : ℕ → ℕ → ℕ
  rngQ : ℚ → ℚ → ℚ
  is_playing : Bool
  position : ℚ

/-- `AudioEntityState` from `engine/mod.rs` lines 142-156. -/
inductive AudioEntityState : Type
  | Virgin
  | Preview
  | PrepareRun
  | WaitingForStart
  | WaitingForTrigger
  | Starting
  | Playing
  | Repeat
  | Loop
  | Finished
  | Reset
  | Dead
  deriving DecidableEq

/-- `AudioEntityParameters` from `engine/mod.rs` lines 173-180;
`next_play` is kept in milliseconds. -/
structure AudioEntityParameters where
  state : AudioEntityState
  next_play : ℕ
  repeats : ℕ
  loops : ℕ
  fade_in : ℚ
  max_volume : ℚ
  deriving DecidableEq

/-- `AudioEntityParameters::new` from `engine/mod.rs` lines 182-193. -/
def AudioEntityParameters.new : AudioEntityParameters :=
  { state := AudioEntityState.Virgin
    next_play := 0
    repeats := 0
    loops := 1
    fade_in := 0
    max_volume := 1 }

/-- `AudioEntity` from `engine/mod.rs` lines 164-171.  The backend object
`object: O` is externalised: its observations come from `TickEnv` and the
calls made on it are recorded as `BackendOp` lists. -/
structure AudioEntity where
  sound : Sound
  parameters : AudioEntityParameters
  is_triggered : Bool
  is_preview : Bool
  deriving DecidableEq

/-- `AudioEntity::new` from `engine/mod.rs` lines 196-204. -/
def AudioEntity.new (sound : Sound) : AudioEntity :=
  { sound := sound
    parameters := AudioEntityParameters.new
    is_triggered := false
    is_preview := false }

/-- The ops emitted by the `AudioEntityState::Starting` arm of
`AudioEntity::update` (`engine/mod.rs` lines 295-332): `play`, then the
gated pitch / lowpass / highpass draws, then `set_volume(0.0)` when fade-in
is enabled, then `set_reverb`. -/
def startingOps (e : AudioEntity) (env : TickEnv) : List BackendOp :=
  [BackendOp.play]
    ++ (if e.sound.pitch_enabled then
          [BackendOp.setPitch (get_random_value env.rngQ e.sound.pitch)] else [])
    ++ (if e.sound.lowpass_enabled then
          [BackendOp.setLowpass (get_random_value env.rngQ e.sound.lowpass)] else [])
    ++ (if e.sound.highpass_enabled then
          [BackendOp.setHighpass (get_random_value env.rngQ e.sound.highpass)] else [])
    ++ (if e.sound.fade_in_enabled then [BackendOp.setVolume 0] else [])
    ++ [BackendOp.setReverb e.sound.reverb]

/-- The volume computed in the `Playing` arm (`engine/mod.rs` lines 336-344):
the fade-in envelope while `get_position() < fade_in`, else `max_volume`. -/
def playingVolume (e : AudioEntity) (env : TickEnv) : ℚ :=
  if e.sound.fade_in_enabled && decide (env.position < e.parameters.fade_in) then
    (1 - (e.parameters.fade_in - env.position) / e.parameters.fade_in)
      * e.parameters.max_volume
  else
    e.parameters.max_volume

/-- `AudioEntity::update` from `engine/mod.rs` lines 227-417, one tick of the
per-sound state machine.  Returns the mutated entity and the ordered list of
backend calls the tick issued.  `delta` is the elapsed milliseconds. -/
def AudioEntity.update (e : AudioEntity) (env : TickEnv) (delta : ℕ) :
    AudioEntity × List BackendOp :=
  match e.parameters.state with
  | AudioEntityState.Virgin =>
      let np := get_random_value env.rngN e.sound.loop_delay
      let lps := get_random_value env.rngN e.sound.loop_count
      let st :=
        if e.sound.trigger.isSome && !e.is_preview then
          AudioEntityState.WaitingForTrigger
        else
          AudioEntityState.PrepareRun
      ({ e with parameters :=
          { e.parameters with next_play := np, loops := lps, state := st } }, [])
  | AudioEntityState.Preview =>
      ({ e with parameters :=
          { e.parameters with state := AudioEntityState.Reset } }, [])
  | AudioEntityState.Reset =>
      ({ e with parameters :=
          { e.parameters with state := AudioEntityState.Virgin } },
       [BackendOp.stop])
  | AudioEntityState.WaitingForTrigger =>
      if e.is_triggered then
        ({ e with
            parameters := { e.parameters with state := AudioEntityState.WaitingForStart }
            is_triggered := false }, [])
      else
        (e, [])
  | AudioEntityState.PrepareRun =>
      let reps := get_random_value env.rngN e.sound.repeat_count
      let st :=
        if e.is_preview then AudioEntityState.Starting else AudioEntityState.WaitingForStart
      ({ e with parameters :=
          { e.parameters with repeats := reps, state := st } }, [])
  | AudioEntityState.WaitingForStart =>
      -- `checked_sub(delta).unwrap_or(0)`: ℕ subtraction saturates at 0
      let np := if 0 < e.parameters.next_play then e.parameters.next_play - delta
                else e.parameters.next_play
      let st := if np = 0 then AudioEntityState.Starting else e.parameters.state
      ({ e with parameters :=
          { e.parameters with next_play := np, state := st } }, [])
  | AudioEntityState.Starting =>
      let mv := get_random_value env.rngQ e.sound.volume
      let fi := if e.sound.fade_in_enabled then get_random_value env.rngQ e.sound.fade_in
                else e.parameters.fade_in
      ({ e with parameters :=
          { e.parameters with
              max_volume := mv
              fade_in := fi
              state := AudioEntityState.Playing } },
       startingOps e env)
  | AudioEntityState.Playing =>
      let vOps := [BackendOp.setVolume (playingVolume e env)]
      if !env.is_playing then
        if e.sound.trigger.isSome && e.is_triggered then
          ({ e with
              parameters := { e.parameters with state := AudioEntityState.Reset }
              is_triggered := false },
           vOps ++ [BackendOp.stop])
        else
          ({ e with parameters :=
              { e.parameters with state := AudioEntityState.Repeat } }, vOps)
      else
        (e, vOps)
  | AudioEntityState.Repeat =>
      if 0 < e.parameters.repeats then
        ({ e with parameters :=
            { e.parameters with
                repeats := e.parameters.repeats - 1
                next_play := get_random_value env.rngN e.sound.repeat_delay
                state := AudioEntityState.WaitingForStart } }, [])
      else if e.is_preview then
        ({ e with
            is_preview := false
            parameters := { e.parameters with state := AudioEntityState.Virgin } }, [])
      else
        ({ e with parameters :=
            { e.parameters with state := AudioEntityState.Loop } }, [])
  | AudioEntityState.Loop =>
      if 0 < e.parameters.loops || e.sound.loop_forever then
        ({ e with parameters :=
            { e.parameters with
                loops := if e.sound.loop_forever then e.parameters.loops
                         else e.parameters.loops - 1
                next_play := get_random_value env.rngN e.sound.loop_delay
                state := AudioEntityState.PrepareRun } },
         [BackendOp.stop])
      else
        ({ e with parameters :=
            { e.parameters with state := AudioEntityState.Finished } },
         [BackendOp.stop])
  | AudioEntityState.Finished =>
      if e.sound.trigger.isSome then
        ({ e with parameters :=
            { e.parameters with state := AudioEntityState.Reset } }, [])
      else
        ({ e with parameters :=
            { e.parameters with state := AudioEntityState.Dead } }, [])
  | AudioEntityState.Dead => (e, [])

/-- Run of a single entity: `n` consecutive `update` calls driven by the
per-tick environments `envs` and elapsed deltas `deltas` (states only; this
is the controller calling `handle.update` once per tick). -/
def runEntity (envs : ℕ → TickEnv) (deltas : ℕ → ℕ) (e : AudioEntity) : ℕ → AudioEntity
  | 0 => e
  | n + 1 => ((runEntity envs deltas e n).update (envs n) (deltas n)).1

/-- Number of ticks among the first `n` that the entity spends in state
`PrepareRun` — each loop iteration passes through `PrepareRun` for exactly
one tick, so this counts loop iterations. -/
def prepareRunCount (envs : ℕ → TickEnv) (deltas : ℕ → ℕ) (e : AudioEntity) : ℕ → ℕ
  | 0 => 0
  | n + 1 =>
      prepareRunCount envs deltas e n +
        (if (runEntity envs deltas e n).parameters.state = AudioEntityState.PrepareRun
         then 1 else 0)

/-- `Sample` from `samplesdb/db.rs` lines 9-14 (tags kept as plain names). -/
structure Sample where
  id : ℤ
  path : String
  tags : List String
  deriving DecidableEq

/-- `SamplesDB` from `samplesdb/db.rs` lines 22-28: the in-memory sample map
(iteration order is irrelevant, modelled as a list) and the base directory.
The SQLite connection only feeds this map at `open` time. -/
structure SamplesDB where
  samples : List Sample
  base_path : String
  deriving DecidableEq

/-- `PathBuf::push` with a relative component, as used by
`full_path_of_sample`: base path extended by a separator and the relative
sample path. -/
def pathJoin (base rel : String) : String := base ++ "/" ++ rel

/-- `SamplesDB::sample_id_by_path` from `samplesdb/db.rs` lines 163-171:
scan the sample map for the first record with the given relative path. -/
def SamplesDB.sample_id_by_path (db : SamplesDB) (path : String) : Option ℤ :=
  (db.samples.find? (fun s => s.path == path)).map (fun s => s.id)

/-- `SamplesDB::full_path_of_sample` from `samplesdb/db.rs` lines 173-177:
the base path joined with the stored relative path of the sample with the
given id.  The source indexes the map (panicking on a missing id); the
model returns `none` there instead. -/
def SamplesDB.full_path_of_sample (db : SamplesDB) (sample_id : ℤ) : Option String :=
  (db.samples.find? (fun s => s.id == sample_id)).map
    (fun s => pathJoin db.base_path s.path)

/-- `FadeDirection` from `engine/mod.rs` lines 43-46. -/
inductive FadeDirection : Type
  | Out
  | In
  deriving DecidableEq

/-- The controller-owned state of `AudioController` (`engine/mod.rs` lines
27-41) that the tick loop reads and writes: entity map (modelled as a list
in iteration order), the pending map built by LoadTheme, the fade state,
master volume, the playing / theme flags and the sample library.  The
channels and backend handle are externalised. -/
structure Controller where
  sound_handles : List AudioEntity
  next_sound_handles : Option (List AudioEntity)
  fade_status : Bool
  fade_volume : ℚ
  fade_direction : FadeDirection
  master_volume : ℚ
  playing : Bool
  theme_loaded : Bool
  theme : Option String
  samplesdb : SamplesDB
  deriving DecidableEq

/-- A backend call issued by the controller: either a call on one entity
(tagged with the sound name) or `backend.set_volume` (the master/context
gain, line 130 and `handle_volume`). -/
inductive COp : Type
  | entity : String → BackendOp → COp
  | setMaster : ℚ → COp
  deriving DecidableEq

/-- The per-entity update guard of the tick loop (`engine/mod.rs` line 91):
`handle.is_preview || self.playing && handle.sound.enabled`. -/
def eligibleEntity (playing : Bool) (e : AudioEntity) : Bool :=
  e.is_preview || (playing && e.sound.enabled)

/-- The entity-update pass of one tick-loop iteration (`engine/mod.rs`
lines 90-94): each eligible entity is updated once; emitted backend calls
are tagged with the sound name.  `envf` supplies each entity its tick
environment. -/
def entityPhase (playing : Bool) (envf : String → TickEnv) (delta : ℕ) :
    List AudioEntity → List AudioEntity × List COp
  | [] => ([], [])
  | e :: rest =>
      let head :=
        if eligibleEntity playing e then
          let r := e.update (envf e.sound.name) delta
          (r.1, r.2.map (COp.entity e.sound.name))
        else (e, ([] : List COp))
      let tail := entityPhase playing envf delta rest
      (head.1 :: tail.1, head.2 ++ tail.2)

/-- The cross-fade step of one tick-loop iteration (`engine/mod.rs` lines
96-131).  When pending entities exist or a fade is active: activate the
fade if fresh (direction Out, volume = master), step the volume by 0.1 in
the fade direction, install the pending set when the fade-out bottoms out
(stopping and dropping every old entity), and finally pass the fade volume
to `backend.set_volume`.  The source unwraps `next_sound_handles` at the
install point; the model defaults a (never reached there) `none` to `[]`. -/
def fadePhase (c : Controller) : Controller × List COp :=
  if c.next_sound_handles.isSome || c.fade_status then
    let c1 :=
      if !c.fade_status then
        { c with
            fade_status := true
            fade_direction := FadeDirection.Out
            fade_volume := c.master_volume }
      else c
    match c1.fade_direction with
    | FadeDirection.Out =>
        let v := c1.fade_volume - 1/10
        if v ≤ 0 then
          let stops := c1.sound_handles.map
            (fun e => COp.entity e.sound.name BackendOp.stop)
          let c2 := { c1 with
              fade_direction := FadeDirection.In
              fade_volume := 0
              sound_handles := c1.next_sound_handles.getD []
              next_sound_handles := none }
          (c2, stops ++ [COp.setMaster 0])
        else
          ({ c1 with fade_volume := v }, [COp.setMaster v])
    | FadeDirection.In =>
        let v := c1.fade_volume + 1/10
        let c2 :=
          if c1.master_volume ≤ v then { c1 with fade_volume := v, fade_status := false }
          else { c1 with fade_volume := v }
        (c2, [COp.setMaster v])
  else (c, [])

/-- One command-free iteration of `AudioController::run` (`engine/mod.rs`
lines 88-131): the entity-update pass followed by the cross-fade step, with
the backend calls of both phases in issue order. -/
def controllerTick (c : Controller) (envf : String → TickEnv) (delta : ℕ) :
    Controller × List COp :=
  let ep := entityPhase c.playing envf delta c.sound_handles
  let c1 := { c with sound_handles := ep.1 }
  let fp := fadePhase c1
  (fp.1, ep.2 ++ fp.2)

/-- `n` command-free tick-loop iterations from controller state `c`. -/
def runTicks (envs : ℕ → String → TickEnv) (deltas : ℕ → ℕ) (c : Controller) :
    ℕ → Controller
  | 0 => c
  | n + 1 => (controllerTick (runTicks envs deltas c n) (envs n) (deltas n)).1

/-- The backend calls issued during tick `n` of a command-free run. -/
def tickOpsAt (envs : ℕ → String → TickEnv) (deltas : ℕ → ℕ) (c : Controller)
    (n : ℕ) : List COp :=
  (controllerTick (runTicks envs deltas c n) (envs n) (deltas n)).2

/-- `AudioEngineError` from `engine/error.rs`: wrapped backend failures and
missing samples (the backend error payload kept as its display text). -/
inductive AudioEngineError : Type
  | AudioBackendError : String → AudioEngineError
  | SampleNotFound : String → AudioEngineError
  deriving DecidableEq

/-- The `Response` enum consumed by `messaging.rs` (Success, Error and the
payload-carrying variants built by the handlers).  The enum declaration
itself lives in the (stale in this snapshot) `audio_engine/messages.rs`;
variants and payloads are exactly those constructed in `messaging.rs`. -/
inductive Response : Type
  | Success : Response
  | Error : String → Response
  | Status : Bool → Bool → Option String → List String → List (String × ℕ) →
      List String → Response
  | SoundLibrary : List (String × List String) → Response
  | DriverList : List (ℕ × String) → Response
  | Driver : ℤ → Response
  deriving DecidableEq

/-- `Theme` as consumed by `handle_load_theme`: name and declared sounds. -/
structure Theme where
  name : String
  sounds : List Sound

/-- The `Command` enum dispatched by `run_message_queue`
(`messaging.rs` lines 244-258). -/
inductive Command : Type
  | Quit : Command
  | Pause : Command
  | Play : Command
  | PreviewSound : String → Command
  | LoadTheme : Theme → Command
  | Trigger : String → Command
  | GetStatus : Command
  | GetSoundLibrary : Command
  | SetVolume : ℚ → Command
  | GetDriverList : Command
  | GetDriver : Command
  | SetDriver : ℤ → Command

/-- The backend facilities the command handlers consult, abstracted: the
result of `load_file` per path, the device list, the current device id. -/
structure BackendEnv where
  loadFile : String → Except String Unit
  devices : List String
  current_device : ℤ

/-- `AudioEntity::pause` (`engine/mod.rs` lines 215-217) ignores its flag
and calls `object.pause()`; `handle_pause` and `handle_play` invoke it on
every entity in state `Playing` (`messaging.rs` lines 43-47 and 62-66).
These are the pause calls such a sweep issues. -/
def pausedOps (hs : List AudioEntity) : List COp :=
  (hs.filter (fun e => decide (e.parameters.state = AudioEntityState.Playing))).map
    (fun e => COp.entity e.sound.name BackendOp.pause)

/-- `AudioController::handle_pause` from `messaging.rs` lines 41-58. -/
def handle_pause (c : Controller) : Controller × List Response × List COp :=
  if c.theme_loaded then
    ({ c with playing := false }, [Response.Success], pausedOps c.sound_handles)
  else
    (c, [Response.Error "No theme loaded!"], [])

/-- `AudioController::handle_play` from `messaging.rs` lines 60-78. -/
def handle_play (c : Controller) : Controller × List Response × List COp :=
  if c.theme_loaded then
    ({ c with playing := true }, [Response.Success], pausedOps c.sound_handles)
  else
    (c, [Response.Error "No theme loaded!"], [])

/-- `AudioController::handle_preview_sound` from `messaging.rs` lines 80-93.
The error text is the literal source string (the format placeholder is not
filled in the source). -/
def handle_preview_sound (c : Controller) (sound : String) :
    Controller × List Response :=
  if c.sound_handles.any (fun e => e.sound.name == sound) then
    ({ c with sound_handles := c.sound_handles.map (fun e =>
        if e.sound.name == sound then
          { e with
              is_preview := true
              parameters := { e.parameters with state := AudioEntityState.Preview } }
        else e) },
     [Response.Success])
  else
    (c, [Response.Error "No such sound \x7b\x7d"])

/-- The per-sound loop of `handle_load_theme` (`messaging.rs` lines 97-118):
look each declared sound up in the sample library (on a miss, answer with an
Error response and fail with `SampleNotFound`), ask the backend to load the
full path (on failure the source's `send_response!(self)` answers with a
bare `Success` before propagating the error), and otherwise accumulate a
fresh entity per sound. -/
def loadSounds (db : SamplesDB) (loadFile : String → Except String Unit) :
    List Sound → List AudioEntity → List AudioEntity ⊕ (Response × AudioEngineError)
  | [], acc => Sum.inl acc
  | s :: rest, acc =>
      match db.sample_id_by_path s.file with
      | none =>
          Sum.inr (Response.Error ("No such sound " ++ s.file),
                   AudioEngineError.SampleNotFound s.file)
      | some id =>
          match loadFile ((db.full_path_of_sample id).getD "") with
          | Except.error e =>
              Sum.inr (Response.Success, AudioEngineError.AudioBackendError e)
          | Except.ok _ => loadSounds db loadFile rest (acc ++ [AudioEntity.new s])

/-- `AudioController::handle_load_theme` from `messaging.rs` lines 95-130:
on success install the built entities as `next_sound_handles`, record the
theme name, set `theme_loaded` and answer Success; on failure answer with
the response chosen inside the loop and return the error. -/
def handle_load_theme (c : Controller) (benv : BackendEnv) (theme : Theme) :
    Controller × List Response × Except AudioEngineError Unit :=
  match loadSounds c.samplesdb benv.loadFile theme.sounds [] with
  | Sum.inr re => (c, [re.1], Except.error re.2)
  | Sum.inl handles =>
      ({ c with
          next_sound_handles := some handles
          theme := some theme.name
          theme_loaded := true },
       [Response.Success], Except.ok ())

/-- `AudioController::handle_trigger` from `messaging.rs` lines 132-147
(the source wraps the unknown name in single quotes). -/
def handle_trigger (c : Controller) (sound : String) : Controller × List Response :=
  if c.sound_handles.any (fun e => e.sound.name == sound) then
    ({ c with sound_handles := c.sound_handles.map (fun e =>
        if e.sound.name == sound then { e with is_triggered := !e.is_triggered }
        else e) },
     [Response.Success])
  else
    (c, [Response.Error ("Unknown sound " ++ sound ++ "!")])

/-- `AudioController::handle_get_status` from `messaging.rs` lines 149-179:
names in state Playing, names in WaitingForStart with `next_play.as_secs()`
(milliseconds divided by 1000), and names being previewed. -/
def handle_get_status (c : Controller) : Controller × List Response :=
  let playingL := (c.sound_handles.filter
      (fun e => decide (e.parameters.state = AudioEntityState.Playing))).map
      (fun e => e.sound.name)
  let nextL := (c.sound_handles.filter
      (fun e => decide (e.parameters.state = AudioEntityState.WaitingForStart))).map
      (fun e => (e.sound.name, e.parameters.next_play / 1000))
  let prevL := (c.sound_handles.filter (fun e => e.is_preview)).map
      (fun e => e.sound.name)
  (c, [Response.Status c.playing c.theme_loaded c.theme playingL nextL prevL])

/-- `AudioController::handle_get_sound_library` from `messaging.rs`
lines 181-201. -/
def handle_get_sound_library (c : Controller) : Controller × List Response :=
  (c, [Response.SoundLibrary (c.samplesdb.samples.map (fun s => (s.path, s.tags)))])

/-- `AudioController::handle_volume` from `messaging.rs` lines 203-209. -/
def handle_volume (c : Controller) (value : ℚ) :
    Controller × List Response × List COp :=
  ({ c with master_volume := value }, [Response.Success], [COp.setMaster value])

/-- `AudioController::handle_get_driver_list` from `messaging.rs`
lines 211-222: the device names enumerated with their indices. -/
def handle_get_driver_list (c : Controller) (benv : BackendEnv) :
    Controller × List Response :=
  (c, [Response.DriverList benv.devices.enum])

/-- Result of one `run_message_queue` call: updated controller, responses
sent, backend calls issued, whether Quit was seen, and the handler result
the `?` operators would propagate. -/
structure MQResult where
  ctrl : Controller
  responses : List Response
  ops : List COp
  quit : Bool
  result : Except AudioEngineError Unit

/-- `AudioController::run_message_queue` from `messaging.rs` lines 239-262:
dispatch at most one polled command (`none` models the 50 ms timeout) to
its handler; `Quit` returns true without a response. -/
def run_message_queue (c : Controller) (benv : BackendEnv) (cmd : Option Command) :
    MQResult :=
  match cmd with
  | none => ⟨c, [], [], false, Except.ok ()⟩
  | some Command.Quit => ⟨c, [], [], true, Except.ok ()⟩
  | some Command.Pause =>
      let r := handle_pause c
      ⟨r.1, r.2.1, r.2.2, false, Except.ok ()⟩
  | some Command.Play =>
      let r := handle_play c
      ⟨r.1, r.2.1, r.2.2, false, Except.ok ()⟩
  | some (Command.PreviewSound sound) =>
      let r := handle_preview_sound c sound
      ⟨r.1, r.2, [], false, Except.ok ()⟩
  | some (Command.LoadTheme theme) =>
      let r := handle_load_theme c benv theme
      ⟨r.1, r.2.1, [], false, r.2.2⟩
  | some (Command.Trigger sound) =>
      let r := handle_trigger c sound
      ⟨r.1, r.2, [], false, Except.ok ()⟩
  | some Command.GetStatus =>
      let r := handle_get_status c
      ⟨r.1, r.2, [], false, Except.ok ()⟩
  | some Command.GetSoundLibrary =>
      let r := handle_get_sound_library c
      ⟨r.1, r.2, [], false, Except.ok ()⟩
  | some (Command.SetVolume value) =>
      let r := handle_volume c value
      ⟨r.1, r.2.1, r.2.2, false, Except.ok ()⟩
  | some Command.GetDriverList =>
      let r := handle_get_driver_list c benv
      ⟨r.1, r.2, [], false, Except.ok ()⟩
  | some Command.GetDriver =>
      ⟨c, [Response.Driver benv.current_device], [], false, Except.ok ()⟩
  | some (Command.SetDriver _) =>
      ⟨c, [Response.Success], [], false, Except.ok ()⟩

/-- The per-iteration external inputs of `AudioController::run` as far as
error flow is concerned: the result of `run_message_queue` and the result
of each eligible entity's `update` call, in iteration order.  The
controller is generic over the backend, so these outcomes are genuine
inputs of the loop. -/
structure TickOutcome where
  mq : Except AudioEngineError Bool
  entityResults : List (Except AudioEngineError Unit)

/-- The entity-update `for` loop of `AudioController::run` (`engine/mod.rs`
lines 90-94): each `handle.update(..)?` either succeeds and moves to the
next entity, or aborts the whole loop body with its error. -/
def tickEntityPhase : List (Except AudioEngineError Unit) → Except AudioEngineError Unit
  | [] => Except.ok ()
  | Except.ok _ :: rest => tickEntityPhase rest
  | Except.error e :: _ => Except.error e

/-- The error-flow skeleton of `AudioController::run` (`engine/mod.rs`
lines 73-139) over a finite script of tick inputs: a `run_message_queue`
error is logged and replaced by `quit = false` (lines 80-86); an entity
update error propagates through `?` (line 92) and makes `run` return it;
otherwise the loop continues until `quit` holds (`ok true`) or the script
ends (`ok false`). -/
def controllerRun : List TickOutcome → Except AudioEngineError Bool
  | [] => Except.ok false
  | t :: rest =>
      let quit := match t.mq with
        | Except.ok flag => flag
        | Except.error _ => false
      match tickEntityPhase t.entityResults with
      | Except.error e => Except.error e
      | Except.ok _ => if quit then Except.ok true else controllerRun rest

/-- `alto::SourceState` as observed through the `alto` bindings. -/
inductive SourceState : Type
  | Initial
  | Playing
  | Paused
  | Stopped
  deriving DecidableEq

/-- The observable face of a bound OpenAL source: its playback state and
`sec_offset()`. -/
structure OpenALSourceHandle where
  state : SourceState
  sec_offset : ℚ
  deriving DecidableEq

/-- The fields of `OpenALEntityData` (`backends/alto.rs` lines 28-37) that
`get_position` reads: the optionally bound source and the buffer length in
seconds. -/
structure OpenALEntityData where
  source : Option OpenALSourceHandle
  length : ℚ
  deriving DecidableEq

/-- `OpenALEntityData::get_position` from `backends/alto.rs` lines 93-103:
0.0 without a bound source or when the source is not in state Playing,
otherwise `sec_offset() / length`. -/
def OpenALEntityData.get_position (e : OpenALEntityData) : ℚ :=
  match e.source with
  | none => 0
  | some src =>
      if src.state ≠ SourceState.Playing then 0
      else src.sec_offset / e.length

/-- `AudioController::new` from `engine/mod.rs` lines 49-71 (the state
fields; channels and backend are externalised). -/
def Controller.new (samplesdb : SamplesDB) : Controller :=
  { sound_handles := []
    next_sound_handles := none
    fade_status := false
    fade_direction := FadeDirection.Out
    fade_volume := 0
    master_volume := 1
    playing := false
    theme_loaded := false
    theme := none
    samplesdb := samplesdb }

/-- A minimal concrete sound declaration used as test input: every range
degenerate, no trigger, no DSP gates, enabled. -/
def testSound : Sound :=
  { name := "wind"
    file := "a.wav"
    volume := (1, 1)
    pitch := (1, 1)
    lowpass := (1, 1)
    highpass := (1, 1)
    fade_in := (0, 0)
    pitch_enabled := false
    lowpass_enabled := false
    highpass_enabled := false
    fade_in_enabled := false
    repeat_count := (0, 0)
    loop_count := (0, 0)
    repeat_delay := (0, 0)
    loop_delay := (0, 0)
    loop_forever := false
    reverb := "none"
    trigger := none
    enabled := true }

/-- C2: with equal bounds `get_random_value` returns the left bound without
consulting the RNG (deterministically, for every RNG); with `a < b` the
result lies in the half-open interval `[a, b)` whenever the RNG meets the
`gen_range(lo, hi)` contract of the rand crate. -/
theorem c2_get_random_value_range {α : Type} [LinearOrder α] (rng : α → α → α)
    (hrng : ∀ a b : α, a < b → a ≤ rng a b ∧ rng a b < b) (a b : α) :
    (a = b → ∀ rng2 : α → α → α, get_random_value rng2 (a, b) = a) ∧
    (a < b → a ≤ get_random_value rng (a, b) ∧ get_random_value rng (a, b) < b) := by
  constructor
  · intro hab rng2
    simp [get_random_value, hab]
  · intro hlt
    have hne : a ≠ b := ne_of_lt hlt
    simpa [get_random_value, hne] using hrng a b hlt

/-- Witness for C2 at the concrete range `(2, 5)` over ℚ with the RNG that
returns its lower bound (which meets the gen_range contract). -/
theorem c2_get_random_value_range_witness :
    (2 : ℚ) ≤ get_random_value (fun a _ => a) ((2 : ℚ), 5) ∧
      get_random_value (fun a _ => a) ((2 : ℚ), 5) < 5 :=
  (c2_get_random_value_range (fun a _ => a)
    (fun _ _ h => ⟨le_refl _, h⟩) 2 5).2 (by norm_num)

/-- C9: `get_position` returns 0 whenever no source is bound or the bound
source is not in state Playing (paused or stopped), and otherwise returns
the second offset divided by the buffer length. -/
theorem c9_get_position_zero_unless_playing (e : OpenALEntityData) :
    (e.source = none → e.get_position = 0) ∧
    (∀ src, e.source = some src → src.state ≠ SourceState.Playing →
      e.get_position = 0) ∧
    (∀ src, e.source = some src → src.state = SourceState.Playing →
      e.get_position = src.sec_offset / e.length) := by
  refine ⟨fun h => ?_, fun src h hne => ?_, fun src h hp => ?_⟩
  · simp [OpenALEntityData.get_position, h]
  · simp [OpenALEntityData.get_position, h, hne]
  · simp [OpenALEntityData.get_position, h, hp]

/-- Witness for C9: a paused source reports position 0, a playing one the
offset divided by the length. -/
theorem c9_get_position_witness :
    OpenALEntityData.get_position ⟨some ⟨SourceState.Paused, 3⟩, 10⟩ = 0 ∧
    OpenALEntityData.get_position ⟨some ⟨SourceState.Playing, 3⟩, 10⟩ = 3 / 10 :=
  ⟨(c9_get_position_zero_unless_playing _).2.1 _ rfl (by decide),
   (c9_get_position_zero_unless_playing _).2.2 _ rfl rfl⟩

/-- C10: every sample record of an opened library round-trips: its relative
path resolves through `sample_id_by_path` to an id whose
`full_path_of_sample` is the base path joined with that relative path.
Ids are pairwise distinct because the in-memory map is keyed by id. -/
theorem c10_sample_lookup_roundtrip (db : SamplesDB) (s : Sample)
    (hmem : s ∈ db.samples)
    (hids : (db.samples.map Sample.id).Nodup) :
    ∃ id, db.sample_id_by_path s.path = some id ∧
      db.full_path_of_sample id = some (pathJoin db.base_path s.path) := by
  have hex : (db.samples.find? (fun x => x.path == s.path)).isSome :=
    List.find?_isSome.mpr ⟨s, hmem, by simp⟩
  obtain ⟨r, hr⟩ := Option.isSome_iff_exists.mp hex
  have hrpath : r.path = s.path := by
    have := List.find?_some hr
    simpa using this
  have hrmem : r ∈ db.samples := List.mem_of_find?_eq_some hr
  refine ⟨r.id, ?_, ?_⟩
  · simp [SamplesDB.sample_id_by_path, hr]
  · have hex2 : (db.samples.find? (fun x => x.id == r.id)).isSome :=
      List.find?_isSome.mpr ⟨r, hrmem, by simp⟩
    obtain ⟨r2, hr2⟩ := Option.isSome_iff_exists.mp hex2
    have hr2id : r2.id = r.id := by
      have := List.find?_some hr2
      simpa using this
    have hr2mem : r2 ∈ db.samples := List.mem_of_find?_eq_some hr2
    have hr2eq : r2 = r := List.inj_on_of_nodup_map hids hr2mem hrmem hr2id
    simp [SamplesDB.full_path_of_sample, hr2, hr2eq, hrpath]

/-- Witness for C10 on a two-sample library. -/
theorem c10_sample_lookup_roundtrip_witness :
    ∃ id,
      SamplesDB.sample_id_by_path ⟨[⟨1, "a.wav", []⟩, ⟨2, "b.ogg", []⟩], "/lib"⟩
        "b.ogg" = some id ∧
      SamplesDB.full_path_of_sample ⟨[⟨1, "a.wav", []⟩, ⟨2, "b.ogg", []⟩], "/lib"⟩
        id = some "/lib/b.ogg" := by
  have h := c10_sample_lookup_roundtrip ⟨[⟨1, "a.wav", []⟩, ⟨2, "b.ogg", []⟩], "/lib"⟩
    ⟨2, "b.ogg", []⟩ (by simp) (by simp)
  simpa [pathJoin] using h

/-- C8: a Play or Pause command is answered with exactly one response —
Success (setting respectively clearing the playing flag) when a theme is
loaded, and the error "No theme loaded!" (leaving the flag alone)
otherwise. -/
theorem c8_play_pause_single_response (c : Controller) (benv : BackendEnv) :
    ((run_message_queue c benv (some Command.Play)).responses =
      [if c.theme_loaded then Response.Success
       else Response.Error "No theme loaded!"]) ∧
    ((run_message_queue c benv (some Command.Play)).ctrl.playing =
      (if c.theme_loaded then true else c.playing)) ∧
    ((run_message_queue c benv (some Command.Pause)).responses =
      [if c.theme_loaded then Response.Success
       else Response.Error "No theme loaded!"]) ∧
    ((run_message_queue c benv (some Command.Pause)).ctrl.playing =
      (if c.theme_loaded then false else c.playing)) := by
  by_cases h : c.theme_loaded <;>
    simp [run_message_queue, handle_play, handle_pause, h]

/-- A `for` sweep whose update results are all `Ok` completes the tick. -/
theorem tickEntityPhase_all_ok (results : List (Except AudioEngineError Unit))
    (h : ∀ r ∈ results, r = Except.ok ()) :
    tickEntityPhase results = Except.ok () := by
  induction results with
  | nil => rfl
  | cons r rest ih =>
      have hr := h r (by simp)
      subst hr
      exact ih (fun x hx => h x (by simp [hx]))

/-- The first `Err` in the sweep aborts it with that error. -/
theorem tickEntityPhase_first_error (e : AudioEngineError)
    (pre post : List (Except AudioEngineError Unit))
    (h : ∀ r ∈ pre, r = Except.ok ()) :
    tickEntityPhase (pre ++ Except.error e :: post) = Except.error e := by
  induction pre with
  | nil => rfl
  | cons r rest ih =>
      have hr := h r (by simp)
      subst hr
      exact ih (fun x hx => h x (by simp [hx]))

/-- Counterexample to C1: a tick whose single entity update returns a
backend error makes `AudioController::run` return that error — the loop
exits instead of continuing to the next tick (the `?` on line 92 of
`engine/mod.rs` propagates the error). -/
theorem c1_counterexample :
    controllerRun
      [⟨Except.ok false,
        [Except.error (AudioEngineError.AudioBackendError "set_volume failed")]⟩,
       ⟨Except.ok false, [Except.ok ()]⟩] =
      Except.error (AudioEngineError.AudioBackendError "set_volume failed") := by
  rfl

/-- C1 amended: only `run_message_queue` errors are logged and swallowed
(the iteration continues with `quit = false`); an entity update error is
propagated by `?` out of `AudioController::run`, which returns it at once —
the remaining entities of that tick and all later ticks are skipped. -/
theorem c1_entity_error_exits_run (e : AudioEngineError) (e2 : AudioEngineError)
    (mq : Except AudioEngineError Bool)
    (pre post results : List (Except AudioEngineError Unit))
    (rest : List TickOutcome)
    (hpre : ∀ r ∈ pre, r = Except.ok ())
    (hres : ∀ r ∈ results, r = Except.ok ()) :
    controllerRun (⟨mq, pre ++ Except.error e :: post⟩ :: rest) = Except.error e ∧
    controllerRun (⟨Except.error e2, results⟩ :: rest) = controllerRun rest := by
  constructor
  · simp [controllerRun, tickEntityPhase_first_error e pre post hpre]
  · simp [controllerRun, tickEntityPhase_all_ok results hres]

/-- Witness for the amended C1 at concrete tick scripts. -/
theorem c1_entity_error_exits_run_witness :
    controllerRun
        [⟨Except.ok false,
          [Except.ok (), Except.error (AudioEngineError.AudioBackendError "pitch"),
           Except.ok ()]⟩,
         ⟨Except.ok true, []⟩] =
      Except.error (AudioEngineError.AudioBackendError "pitch") ∧
    controllerRun
        [⟨Except.error (AudioEngineError.SampleNotFound "x.wav"), [Except.ok ()]⟩,
         ⟨Except.ok true, []⟩] =
      controllerRun [⟨Except.ok true, []⟩] := by
  have h := c1_entity_error_exits_run
    (AudioEngineError.AudioBackendError "pitch")
    (AudioEngineError.SampleNotFound "x.wav")
    (Except.ok false) [Except.ok ()] [Except.ok ()] [Except.ok ()]
    [⟨Except.ok true, []⟩] (by intro r hr; simpa using hr)
    (by intro r hr; simpa using hr)
  simpa using h

/-- A declared sound whose file is missing from the sample library, for the
LoadTheme failure paths. -/
def missingSound : Sound := { testSound with name := "rain", file := "missing.wav" }

/-- A one-sample library rooted at /lib. -/
def testDB : SamplesDB := ⟨[⟨1, "a.wav", []⟩], "/lib"⟩

/-- A backend whose decoder always fails. -/
def failingLoadEnv : BackendEnv := ⟨fun _ => Except.error "decode failed", [], 0⟩

/-- A backend whose decoder always succeeds. -/
def okLoadEnv : BackendEnv := ⟨fun _ => Except.ok (), [], 0⟩

/-- C3, evaluated: (i) a failed library lookup answers with an Error
response and fails with SampleNotFound; (iii) when every sound resolves and
loads, LoadTheme answers Success, installs the pending entities, records
the theme name and sets theme_loaded; but (ii) — the divergence — when the
backend's load_file fails, the handler answers with a bare `Success`
response (the `send_response!(self)` on line 110 of `messaging.rs`) while
returning the backend error, instead of surfacing an Error response. -/
theorem c3_load_theme_backend_error_answers_success :
    ((handle_load_theme (Controller.new testDB) failingLoadEnv
        ⟨"storm", [missingSound]⟩).2.1 =
      [Response.Error "No such sound missing.wav"]) ∧
    ((handle_load_theme (Controller.new testDB) okLoadEnv
        ⟨"storm", [testSound]⟩).2.1 = [Response.Success]) ∧
    ((handle_load_theme (Controller.new testDB) okLoadEnv
        ⟨"storm", [testSound]⟩).1.next_sound_handles =
      some [AudioEntity.new testSound]) ∧
    ((handle_load_theme (Controller.new testDB) okLoadEnv
        ⟨"storm", [testSound]⟩).1.theme = some "storm") ∧
    ((handle_load_theme (Controller.new testDB) okLoadEnv
        ⟨"storm", [testSound]⟩).1.theme_loaded = true) ∧
    ((handle_load_theme (Controller.new testDB) failingLoadEnv
        ⟨"storm", [testSound]⟩).2.1 = [Response.Success]) ∧
    ((handle_load_theme (Controller.new testDB) failingLoadEnv
        ⟨"storm", [testSound]⟩).2.2 =
      Except.error (AudioEngineError.AudioBackendError "decode failed")) := by
  refine ⟨?_, ?_, ?_, ?_, ?_, ?_, ?_⟩ <;> rfl

/-- A triggered variant of the test sound. -/
def triggeredSound : Sound := { testSound with name := "gong", trigger := some "t" }

/-- A triggered entity sitting in state Playing with its trigger toggled on. -/
def c4Entity : AudioEntity :=
  { sound := triggeredSound
    parameters := { AudioEntityParameters.new with state := AudioEntityState.Playing }
    is_triggered := true
    is_preview := false }

/-- A tick environment whose backend still reports the source as playing. -/
def stillPlayingEnv : TickEnv := ⟨fun a _ => a, fun a _ => a, true, 0⟩

/-- A tick environment whose backend reports the source as stopped. -/
def stoppedEnv : TickEnv := ⟨fun a _ => a, fun a _ => a, false, 0⟩

/-- Counterexample to C4: an entity with a trigger, `is_triggered = true`
and state Playing is NOT cancelled within one update while the backend
still reports the source playing — no `stop` is issued, the state stays
Playing and `is_triggered` stays set (the cancel branch of the Playing arm
runs only under `!self.object.is_playing()`). -/
theorem c4_counterexample :
    (BackendOp.stop ∉ (c4Entity.update stillPlayingEnv 50).2) ∧
    ((c4Entity.update stillPlayingEnv 50).1.parameters.state
      = AudioEntityState.Playing) ∧
    ((c4Entity.update stillPlayingEnv 50).1.is_triggered = true) := by
  refine ⟨?_, rfl, rfl⟩
  decide

/-- C4 amended: with a trigger defined and `is_triggered` set during
Playing, nothing happens while the backend reports the source still
playing; on the first update where `is_playing()` is false the backend
receives `stop`, the state becomes Reset and `is_triggered` is cleared,
and the two following updates pass through Virgin (issuing the Reset-arm
`stop`) to WaitingForTrigger with `is_triggered` still false. -/
theorem c4_trigger_cancel_on_stop (e : AudioEntity) (env1 env2 env3 : TickEnv)
    (d1 d2 d3 : ℕ)
    (htr : e.sound.trigger.isSome = true)
    (hflag : e.is_triggered = true)
    (hprev : e.is_preview = false)
    (hstate : e.parameters.state = AudioEntityState.Playing)
    (hplay : env1.is_playing = false) :
    BackendOp.stop ∈ (e.update env1 d1).2 ∧
    (e.update env1 d1).1.parameters.state = AudioEntityState.Reset ∧
    (e.update env1 d1).1.is_triggered = false ∧
    BackendOp.stop ∈ ((e.update env1 d1).1.update env2 d2).2 ∧
    ((e.update env1 d1).1.update env2 d2).1.parameters.state
      = AudioEntityState.Virgin ∧
    (((e.update env1 d1).1.update env2 d2).1.update env3 d3).1.parameters.state
      = AudioEntityState.WaitingForTrigger ∧
    (((e.update env1 d1).1.update env2 d2).1.update env3 d3).1.is_triggered
      = false := by
  have h1 : e.update env1 d1 =
      ({ e with
          parameters := { e.parameters with state := AudioEntityState.Reset }
          is_triggered := false },
       [BackendOp.setVolume (playingVolume e env1), BackendOp.stop]) := by
    simp [AudioEntity.update, hstate, hplay, htr, hflag]
  rw [h1]
  refine ⟨by simp, rfl, rfl, ?_, ?_, ?_, ?_⟩ <;>
    simp [AudioEntity.update, htr, hprev]

/-- Witness for the amended C4 on the concrete triggered entity, with the
backend reporting the source stopped. -/
theorem c4_trigger_cancel_on_stop_witness :
    BackendOp.stop ∈ (c4Entity.update stoppedEnv 50).2 ∧
    (c4Entity.update stoppedEnv 50).1.parameters.state
      = AudioEntityState.Reset ∧
    (((c4Entity.update stoppedEnv 50).1.update stoppedEnv 50).1.update
        stoppedEnv 50).1.parameters.state
      = AudioEntityState.WaitingForTrigger := by
  have h := c4_trigger_cancel_on_stop c4Entity stoppedEnv stoppedEnv stoppedEnv
    50 50 50 rfl rfl rfl rfl rfl
  exact ⟨h.1, h.2.1, h.2.2.2.2.2.1⟩

/-- `update` never touches the declarative sound record. -/
theorem AudioEntity.update_sound (e : AudioEntity) (env : TickEnv) (delta : ℕ) :
    (e.update env delta).1.sound = e.sound := by
  cases hs : e.parameters.state <;>
    simp only [AudioEntity.update, hs] <;>
    (try split_ifs) <;> rfl

/-- `update` never sets `is_preview` (only the Repeat arm clears it). -/
theorem AudioEntity.update_preview (e : AudioEntity) (env : TickEnv) (delta : ℕ)
    (h : e.is_preview = false) : (e.update env delta).1.is_preview = false := by
  cases hs : e.parameters.state <;>
    simp only [AudioEntity.update, hs] <;>
    (try split_ifs) <;> simp [h]

/-- The sound record is constant along an entity run. -/
theorem runEntity_sound (envs : ℕ → TickEnv) (deltas : ℕ → ℕ) (e : AudioEntity) :
    ∀ n, (runEntity envs deltas e n).sound = e.sound := by
  intro n
  induction n with
  | zero => rfl
  | succ n ih => rw [runEntity, AudioEntity.update_sound]; exact ih

/-- `is_preview` stays false along an entity run. -/
theorem runEntity_preview (envs : ℕ → TickEnv) (deltas : ℕ → ℕ) (e : AudioEntity)
    (h : e.is_preview = false) :
    ∀ n, (runEntity envs deltas e n).is_preview = false := by
  intro n
  induction n with
  | zero => exact h
  | succ n ih => rw [runEntity]; exact AudioEntity.update_preview _ _ _ ih

/-- The states reachable from Virgin in a trigger-free, preview-free run
once the first tick has happened. -/
def c5Active (s : AudioEntityState) : Prop :=
  s = AudioEntityState.PrepareRun ∨ s = AudioEntityState.WaitingForStart ∨
  s = AudioEntityState.Starting ∨ s = AudioEntityState.Playing ∨
  s = AudioEntityState.Repeat ∨ s = AudioEntityState.Loop ∨
  s = AudioEntityState.Finished ∨ s = AudioEntityState.Dead

/-- How many further `PrepareRun` ticks a trigger-free run will still see,
as a function of the current state and the `loops` counter. -/
def loopsRemaining : AudioEntityState → ℕ → ℕ
  | AudioEntityState.PrepareRun, l => l + 1
  | AudioEntityState.WaitingForStart, l => l
  | AudioEntityState.Starting, l => l
  | AudioEntityState.Playing, l => l
  | AudioEntityState.Repeat, l => l
  | AudioEntityState.Loop, l => l
  | _, _ => 0

/-- Inductive loop-accounting invariant for a trigger-free, preview-free,
non-looping-forever run out of Virgin: after the first tick the entity
stays in the active region and the `PrepareRun` ticks seen so far plus the
remaining ones always total `1 +` the loop count drawn on the Virgin
tick. -/
theorem c5_invariant (envs : ℕ → TickEnv) (deltas : ℕ → ℕ) (e0 : AudioEntity)
    (htr : e0.sound.trigger = none) (hpv : e0.is_preview = false)
    (hst : e0.parameters.state = AudioEntityState.Virgin)
    (hff : e0.sound.loop_forever = false) :
    ∀ n, 1 ≤ n →
      c5Active (runEntity envs deltas e0 n).parameters.state ∧
      prepareRunCount envs deltas e0 n +
          loopsRemaining (runEntity envs deltas e0 n).parameters.state
            (runEntity envs deltas e0 n).parameters.loops =
        1 + get_random_value (envs 0).rngN e0.sound.loop_count := by
  intro n
  induction n with
  | zero => intro h; exact absurd h (by norm_num)
  | succ n ih =>
      intro _
      by_cases hn : 1 ≤ n
      · obtain ⟨hact, heq⟩ := ih hn
        have hsnd := runEntity_sound envs deltas e0 n
        have hpvn := runEntity_preview envs deltas e0 hpv n
        have htrn : (runEntity envs deltas e0 n).sound.trigger = none := by
          rw [hsnd]; exact htr
        have hffn : (runEntity envs deltas e0 n).sound.loop_forever = false := by
          rw [hsnd]; exact hff
        rcases hact with h | h | h | h | h | h | h | h
        · -- PrepareRun
          constructor
          · simp [runEntity, AudioEntity.update, h, hpvn, c5Active]
          · simp only [loopsRemaining, h] at heq
            simp [runEntity, prepareRunCount, AudioEntity.update, h, hpvn,
              loopsRemaining]
            omega
        · -- WaitingForStart
          simp only [loopsRemaining, h] at heq
          by_cases hnp : (if 0 < (runEntity envs deltas e0 n).parameters.next_play
              then (runEntity envs deltas e0 n).parameters.next_play - deltas n
              else (runEntity envs deltas e0 n).parameters.next_play) = 0 <;>
            constructor <;>
            simp [runEntity, prepareRunCount, AudioEntity.update, h, hnp,
              c5Active, loopsRemaining] <;>
            omega
        · -- Starting
          simp only [loopsRemaining, h] at heq
          constructor <;>
            simp [runEntity, prepareRunCount, AudioEntity.update, h, c5Active,
              loopsRemaining] <;>
            omega
        · -- Playing
          simp only [loopsRemaining, h] at heq
          by_cases hp : (envs n).is_playing <;>
            constructor <;>
            simp [runEntity, prepareRunCount, AudioEntity.update, h, hp, htrn,
              c5Active, loopsRemaining] <;>
            omega
        · -- Repeat
          simp only [loopsRemaining, h] at heq
          by_cases hr : 0 < (runEntity envs deltas e0 n).parameters.repeats <;>
            constructor <;>
            simp [runEntity, prepareRunCount, AudioEntity.update, h, hr, hpvn,
              c5Active, loopsRemaining] <;>
            omega
        · -- Loop
          simp only [loopsRemaining, h] at heq
          by_cases hl : 0 < (runEntity envs deltas e0 n).parameters.loops <;>
            constructor <;>
            simp [runEntity, prepareRunCount, AudioEntity.update, h, hl, hffn,
              c5Active, loopsRemaining] <;>
            omega
        · -- Finished
          simp only [loopsRemaining, h] at heq
          constructor <;>
            simp [runEntity, prepareRunCount, AudioEntity.update, h, htrn,
              c5Active, loopsRemaining] <;>
            omega
        · -- Dead
          simp only [loopsRemaining, h] at heq
          constructor <;>
            simp [runEntity, prepareRunCount, AudioEntity.update, h, c5Active,
              loopsRemaining] <;>
            omega
      · have hn0 : n = 0 := by omega
        subst hn0
        constructor
        · simp [runEntity, AudioEntity.update, hst, htr, c5Active]
        · simp [runEntity, prepareRunCount, AudioEntity.update, hst, htr,
            loopsRemaining]
          omega

/-- With `loop_forever` set, no single update can produce the Finished
state (the only entry, the Loop arm, is guarded by
`loops > 0 || loop_forever`). -/
theorem c5_ff_no_finished_step (e : AudioEntity) (env : TickEnv) (d : ℕ)
    (hff : e.sound.loop_forever = true) :
    (e.update env d).1.parameters.state ≠ AudioEntityState.Finished := by
  cases hs : e.parameters.state <;>
    simp only [AudioEntity.update, hs, hff] <;>
    (try split_ifs) <;> simp_all

/-- C5: in a trigger-free, non-preview run from Virgin, (i) with
`loop_forever = false`, whenever the entity is in Finished the number of
`PrepareRun` passes equals `1 +` the loops drawn on the Virgin tick;
(ii) with `loop_forever = true` the entity is never in Finished;
(iii) in particular `loop_count = (0,0)` with `loop_forever = false` gives
exactly one `PrepareRun` pass — one play schedule, the Loop branch never
re-taken. -/
theorem c5_loop_accounting (envs : ℕ → TickEnv) (deltas : ℕ → ℕ)
    (e0 : AudioEntity)
    (htr : e0.sound.trigger = none) (hpv : e0.is_preview = false)
    (hst : e0.parameters.state = AudioEntityState.Virgin) :
    (e0.sound.loop_forever = false →
      ∀ n, (runEntity envs deltas e0 n).parameters.state = AudioEntityState.Finished →
        prepareRunCount envs deltas e0 n =
          1 + get_random_value (envs 0).rngN e0.sound.loop_count) ∧
    (e0.sound.loop_forever = true →
      ∀ n, (runEntity envs deltas e0 n).parameters.state ≠ AudioEntityState.Finished) ∧
    (e0.sound.loop_forever = false → e0.sound.loop_count = (0, 0) →
      ∀ n, (runEntity envs deltas e0 n).parameters.state = AudioEntityState.Finished →
        prepareRunCount envs deltas e0 n = 1) := by
  have part1 : e0.sound.loop_forever = false →
      ∀ n, (runEntity envs deltas e0 n).parameters.state = AudioEntityState.Finished →
        prepareRunCount envs deltas e0 n =
          1 + get_random_value (envs 0).rngN e0.sound.loop_count := by
    intro hff n hfin
    match n with
    | 0 =>
        rw [show runEntity envs deltas e0 0 = e0 from rfl, hst] at hfin
        exact absurd hfin (by simp)
    | Nat.succ m =>
        have h := (c5_invariant envs deltas e0 htr hpv hst hff (m + 1)
          (by omega)).2
        rw [hfin] at h
        simpa [loopsRemaining] using h
  refine ⟨part1, ?_, ?_⟩
  · intro hff n
    induction n with
    | zero =>
        rw [show runEntity envs deltas e0 0 = e0 from rfl, hst]
        simp
    | succ m _ =>
        rw [runEntity]
        exact c5_ff_no_finished_step _ _ _
          (by rw [runEntity_sound]; exact hff)
  · intro hff hlc n hfin
    have h := part1 hff n hfin
    rw [hlc] at h
    simpa [get_random_value] using h

/-- The constant environment of the C5 witness run: backend reports the
source stopped, RNG returns lower bounds. -/
def steadyEnvs : ℕ → TickEnv := fun _ => stoppedEnv

/-- Constant 50 ms tick deltas. -/
def steadyDeltas : ℕ → ℕ := fun _ => 50

/-- Witness for C5: the test sound (loop_count (0,0), loop_forever false)
reaches Finished on tick 7 of a concrete run with exactly one PrepareRun
pass. -/
theorem c5_loop_accounting_witness :
    (runEntity steadyEnvs steadyDeltas (AudioEntity.new testSound) 7).parameters.state
      = AudioEntityState.Finished ∧
    prepareRunCount steadyEnvs steadyDeltas (AudioEntity.new testSound) 7 = 1 := by
  refine ⟨by decide, ?_⟩
  exact (c5_loop_accounting steadyEnvs steadyDeltas (AudioEntity.new testSound)
    rfl rfl rfl).2.2 rfl rfl 7 (by decide)

/-- The entity-update pass issues only entity-tagged calls, never the
controller-level `backend.set_volume`. -/
theorem entityPhase_no_setMaster (playing : Bool) (envf : String → TickEnv)
    (d : ℕ) (hs : List AudioEntity) (v : ℚ) :
    COp.setMaster v ∉ (entityPhase playing envf d hs).2 := by
  induction hs with
  | nil => simp [entityPhase]
  | cons e rest ih =>
      simp only [entityPhase, List.mem_append, not_or]
      refine ⟨?_, ih⟩
      by_cases hel : eligibleEntity playing e <;> simp [hel]


/-- One tick keeps the master volume, keeps the fade-state invariant
`fade_volume ∈ [0, master]`, passes only values of `[0, master + 0.1]` to
`backend.set_volume`, and does call `backend.set_volume` whenever pending
entities exist or a fade is active. -/
theorem controllerTick_fade_step (c : Controller) (envf : String → TickEnv)
    (d : ℕ) (hm : 0 ≤ c.master_volume)
    (hinv : c.fade_status = true →
      0 ≤ c.fade_volume ∧ c.fade_volume ≤ c.master_volume) :
    ((controllerTick c envf d).1.master_volume = c.master_volume) ∧
    ((controllerTick c envf d).1.fade_status = true →
      0 ≤ (controllerTick c envf d).1.fade_volume ∧
      (controllerTick c envf d).1.fade_volume ≤ c.master_volume) ∧
    (∀ v, COp.setMaster v ∈ (controllerTick c envf d).2 →
      0 ≤ v ∧ v ≤ c.master_volume + 1/10) ∧
    ((c.next_sound_handles.isSome || c.fade_status) = true →
      ∃ v, COp.setMaster v ∈ (controllerTick c envf d).2) := by
  obtain ⟨sh, next, fs, fv, fd, mv, pl, tl, th, db⟩ := c
  dsimp only at hm hinv ⊢
  have hep : ∀ v : ℚ, COp.setMaster v ∉ (entityPhase pl envf d sh).2 :=
    fun v => entityPhase_no_setMaster pl envf d sh v
  cases fs with
  | false =>
      cases next with
      | none =>
          refine ⟨rfl, ?_, ?_, ?_⟩
          · intro h
            simp [controllerTick, fadePhase] at h
          · intro v hv
            simp [controllerTick, fadePhase] at hv
            exact absurd hv (hep v)
          · intro h
            simp at h
      | some pend =>
          by_cases hle : mv ≤ (10:ℚ)⁻¹
          · refine ⟨?_, ?_, ?_, ?_⟩
            · simp [controllerTick, fadePhase, hle]
            · simp [controllerTick, fadePhase, hle]
              try constructor
              all_goals linarith
            · intro v hv
              simp [controllerTick, fadePhase, hle] at hv
              rcases hv with hv | hv
              · exact absurd hv (hep v)
              · subst hv
                try constructor
                all_goals linarith
            · intro _
              simp [controllerTick, fadePhase, hle]
          · refine ⟨?_, ?_, ?_, ?_⟩
            · simp [controllerTick, fadePhase, hle]
            · simp [controllerTick, fadePhase, hle]
              try constructor
              all_goals linarith
            · intro v hv
              simp [controllerTick, fadePhase, hle] at hv
              rcases hv with hv | hv
              · exact absurd hv (hep v)
              · subst hv
                try constructor
                all_goals linarith
            · intro _
              simp [controllerTick, fadePhase, hle]
  | true =>
      obtain ⟨hfv0, hfvm⟩ := hinv rfl
      cases fd with
      | Out =>
          by_cases hle : fv ≤ (10:ℚ)⁻¹
          · refine ⟨?_, ?_, ?_, ?_⟩
            · simp [controllerTick, fadePhase, hle]
            · simp [controllerTick, fadePhase, hle]
              try constructor
              all_goals linarith
            · intro v hv
              simp [controllerTick, fadePhase, hle] at hv
              rcases hv with hv | hv
              · exact absurd hv (hep v)
              · subst hv
                try constructor
                all_goals linarith
            · intro _
              simp [controllerTick, fadePhase, hle]
          · refine ⟨?_, ?_, ?_, ?_⟩
            · simp [controllerTick, fadePhase, hle]
            · simp [controllerTick, fadePhase, hle]
              try constructor
              all_goals linarith
            · intro v hv
              simp [controllerTick, fadePhase, hle] at hv
              rcases hv with hv | hv
              · exact absurd hv (hep v)
              · subst hv
                try constructor
                all_goals linarith
            · intro _
              simp [controllerTick, fadePhase, hle]
      | In =>
          by_cases hge : mv ≤ fv + (10:ℚ)⁻¹
          · refine ⟨?_, ?_, ?_, ?_⟩
            · simp [controllerTick, fadePhase, hge]
            · simp [controllerTick, fadePhase, hge]
            · intro v hv
              simp [controllerTick, fadePhase, hge] at hv
              rcases hv with hv | hv
              · exact absurd hv (hep v)
              · subst hv
                try constructor
                all_goals linarith
            · intro _
              simp [controllerTick, fadePhase, hge]
          · refine ⟨?_, ?_, ?_, ?_⟩
            · simp [controllerTick, fadePhase, hge]
            · simp [controllerTick, fadePhase, hge]
              try constructor
              all_goals linarith
            · intro v hv
              simp [controllerTick, fadePhase, hge] at hv
              rcases hv with hv | hv
              · exact absurd hv (hep v)
              · subst hv
                try constructor
                all_goals linarith
            · intro _
              simp [controllerTick, fadePhase, hge]

/-- A command-free fade-out/fade-in run exercised with no entities, master
volume 1/20 and a freshly pending (empty) theme. -/
def c6Ctrl : Controller :=
  { Controller.new testDB with
      master_volume := 1/20
      next_sound_handles := some [] }

/-- Per-tick environments for controller runs: every entity sees the
stopped-backend environment. -/
def c6Envs : ℕ → String → TickEnv := fun _ _ => stoppedEnv

/-- Counterexample to C6: on tick 1 of the run from `c6Ctrl` the fade step
passes 1/10 to `backend.set_volume`, and 1/10 exceeds the master volume
1/20 — the In ramp increments before comparing, so its final tick
overshoots `master_volume`; the claimed bound `fade volume ∈ [0, master]`
fails. -/
theorem c6_counterexample :
    COp.setMaster (1/10) ∈ tickOpsAt c6Envs steadyDeltas c6Ctrl 1 ∧
    ¬ ((1 : ℚ)/10 ≤ c6Ctrl.master_volume) := by
  constructor
  · norm_num [tickOpsAt, runTicks, controllerTick, entityPhase, fadePhase,
      c6Ctrl, Controller.new]
  · norm_num [c6Ctrl, Controller.new]

/-- C6 amended: on every tick of a command-free run started with no active
fade and a nonnegative master volume, the fade step runs (a
`backend.set_volume` call is issued) whenever pending entities exist or a
fade is active, and every volume passed to `backend.set_volume` lies in
`[0, master_volume + 0.1]` — the final fade-in tick may overshoot
`master_volume` by up to 0.1. -/
theorem c6_fade_bounds (envs : ℕ → String → TickEnv) (deltas : ℕ → ℕ)
    (c0 : Controller) (hst : c0.fade_status = false)
    (hm : 0 ≤ c0.master_volume) :
    ∀ n,
      ((((runTicks envs deltas c0 n).next_sound_handles.isSome ||
          (runTicks envs deltas c0 n).fade_status) = true) →
        ∃ v, COp.setMaster v ∈ tickOpsAt envs deltas c0 n) ∧
      ∀ v, COp.setMaster v ∈ tickOpsAt envs deltas c0 n →
        0 ≤ v ∧ v ≤ c0.master_volume + 1/10 := by
  have hI : ∀ n, (runTicks envs deltas c0 n).master_volume = c0.master_volume ∧
      ((runTicks envs deltas c0 n).fade_status = true →
        0 ≤ (runTicks envs deltas c0 n).fade_volume ∧
        (runTicks envs deltas c0 n).fade_volume ≤ c0.master_volume) := by
    intro n
    induction n with
    | zero =>
        refine ⟨rfl, ?_⟩
        intro h
        rw [show runTicks envs deltas c0 0 = c0 from rfl, hst] at h
        exact absurd h (by simp)
    | succ n ih =>
        obtain ⟨ihm, ihv⟩ := ih
        have hstep := controllerTick_fade_step (runTicks envs deltas c0 n)
          (envs n) (deltas n) (by rw [ihm]; exact hm) (by rw [ihm]; exact ihv)
        rw [runTicks]
        refine ⟨hstep.1.trans ihm, ?_⟩
        intro h
        have hb := hstep.2.1 h
        rwa [ihm] at hb
  intro n
  obtain ⟨ihm, ihv⟩ := hI n
  have hstep := controllerTick_fade_step (runTicks envs deltas c0 n)
    (envs n) (deltas n) (by rw [ihm]; exact hm) (by rw [ihm]; exact ihv)
  refine ⟨fun h => hstep.2.2.2 h, fun v hv => ?_⟩
  have hb := hstep.2.2.1 v hv
  rwa [ihm] at hb

/-- Witness for the amended C6: on tick 0 from `c6Ctrl` (pending entities
present) a `backend.set_volume` call is issued. -/
theorem c6_fade_bounds_witness :
    ∃ v, COp.setMaster v ∈ tickOpsAt c6Envs steadyDeltas c6Ctrl 0 :=
  (c6_fade_bounds c6Envs steadyDeltas c6Ctrl rfl
    (by norm_num [c6Ctrl, Controller.new]) 0).1 rfl

/-- The entity pass preserves each entity's sound record (in order). -/
theorem entityPhase_sounds (playing : Bool) (envf : String → TickEnv) (d : ℕ)
    (hs : List AudioEntity) :
    (entityPhase playing envf d hs).1.map AudioEntity.sound =
      hs.map AudioEntity.sound := by
  induction hs with
  | nil => rfl
  | cons e rest ih =>
      by_cases hel : eligibleEntity playing e <;>
        simp [entityPhase, hel, AudioEntity.update_sound, ih]

/-- Entities sitting in Virgin issue no backend calls during the entity
pass (the Virgin arm only draws parameters). -/
theorem entityPhase_virgin_ops (playing : Bool) (envf : String → TickEnv)
    (d : ℕ) (hs : List AudioEntity)
    (h : ∀ e ∈ hs, e.parameters.state = AudioEntityState.Virgin) :
    (entityPhase playing envf d hs).2 = [] := by
  induction hs with
  | nil => rfl
  | cons e rest ih =>
      have he := h e (by simp)
      have hrest := ih (fun x hx => h x (by simp [hx]))
      by_cases hel : eligibleEntity playing e <;>
        simp [entityPhase, hel, AudioEntity.update, he, hrest]

/-- C7: on the fade-out tick where the decremented fade volume reaches ≤ 0,
every entity of the old set receives `backend.stop` (in the fade step, after
the entity pass), the pending set is installed as current, pending is
cleared, the fade direction becomes In with fade volume exactly 0, the
tick's backend trace ends with the stops of the whole old set followed by
`master_volume(0)`, and the next tick — the new set still being in Virgin —
issues no entity call at all (in particular no `play`), only the fade-in
`master_volume(0.1)` step: master volume 0 is set before any play on the
new set. -/
theorem c7_crossfade_install (c : Controller) (envf envf2 : String → TickEnv)
    (d d2 : ℕ) (pend : List AudioEntity)
    (hst : c.fade_status = true)
    (hdir : c.fade_direction = FadeDirection.Out)
    (hvol : c.fade_volume ≤ 1/10)
    (hpend : c.next_sound_handles = some pend)
    (hvirgin : ∀ e ∈ pend, e.parameters.state = AudioEntityState.Virgin) :
    ((controllerTick c envf d).1.sound_handles = pend) ∧
    ((controllerTick c envf d).1.next_sound_handles = none) ∧
    ((controllerTick c envf d).1.fade_direction = FadeDirection.In) ∧
    ((controllerTick c envf d).1.fade_volume = 0) ∧
    ((controllerTick c envf d).2 =
      (entityPhase c.playing envf d c.sound_handles).2 ++
        ((entityPhase c.playing envf d c.sound_handles).1.map
          (fun e => COp.entity e.sound.name BackendOp.stop) ++ [COp.setMaster 0])) ∧
    ((entityPhase c.playing envf d c.sound_handles).1.map
        (fun e => COp.entity e.sound.name BackendOp.stop) =
      c.sound_handles.map (fun e => COp.entity e.sound.name BackendOp.stop)) ∧
    ((controllerTick (controllerTick c envf d).1 envf2 d2).2 =
      [COp.setMaster (1/10)]) := by
  obtain ⟨sh, next, fs, fv, fd, mv, pl, tl, th, db⟩ := c
  dsimp only at hst hdir hvol hpend hvirgin ⊢
  subst hst hdir hpend
  have hle : fv ≤ (10:ℚ)⁻¹ := by linarith
  have hsnd := entityPhase_sounds pl envf d sh
  have hnew := entityPhase_virgin_ops pl envf2 d2 pend hvirgin
  refine ⟨?_, ?_, ?_, ?_, ?_, ?_, ?_⟩
  · simp [controllerTick, fadePhase, hle]
  · simp [controllerTick, fadePhase, hle]
  · simp [controllerTick, fadePhase, hle]
  · simp [controllerTick, fadePhase, hle]
  · simp [controllerTick, fadePhase, hle]
  · have h1 : ((entityPhase pl envf d sh).1.map AudioEntity.sound).map
        (fun s => COp.entity s.name BackendOp.stop) =
        (entityPhase pl envf d sh).1.map
          (fun e => COp.entity e.sound.name BackendOp.stop) := by
      rw [List.map_map]; rfl
    have h2 : (sh.map AudioEntity.sound).map
        (fun s => COp.entity s.name BackendOp.stop) =
        sh.map (fun e => COp.entity e.sound.name BackendOp.stop) := by
      rw [List.map_map]; rfl
    rw [← h1, hsnd, h2]
  · simp [controllerTick, fadePhase, hle, hnew]

/-- An old-theme entity for the C7 witness. -/
def c7Old : AudioEntity := AudioEntity.new { testSound with name := "old" }

/-- A controller caught on the bottoming fade-out tick: fade active, Out,
fade volume 0.1, one old entity playing, one pending Virgin entity. -/
def c7Ctrl : Controller :=
  { Controller.new testDB with
      sound_handles := [c7Old]
      next_sound_handles := some [AudioEntity.new testSound]
      fade_status := true
      fade_direction := FadeDirection.Out
      fade_volume := 1/10
      playing := true }

/-- Witness for C7 at the concrete install tick. -/
theorem c7_crossfade_install_witness :
    ((controllerTick c7Ctrl (c6Envs 0) 50).1.sound_handles =
      [AudioEntity.new testSound]) ∧
    ((controllerTick c7Ctrl (c6Envs 0) 50).1.fade_volume = 0) ∧
    ((controllerTick (controllerTick c7Ctrl (c6Envs 0) 50).1 (c6Envs 0) 50).2 =
      [COp.setMaster (1/10)]) := by
  have h := c7_crossfade_install c7Ctrl (c6Envs 0) (c6Envs 0) 50 50
    [AudioEntity.new testSound] rfl rfl
    (by norm_num [c7Ctrl, Controller.new]) rfl
    (by intro e he; simp at he; subst he; rfl)
  exact ⟨h.1, h.2.2.2.1, h.2.2.2.2.2.2⟩
